import Mathlib

/-!
Verification of the SCIM data-modeling core (scim2-models).

This file shallowly embeds the parts of the library that the claims touch:
the attribute annotation enums and the context policy engine
(src/scim2_models/annotations.py, context.py, base.py), the path syntax
checker and navigation engine (src/scim2_models/path.py, utils.py), the
exception taxonomy (src/scim2_models/exceptions.py, messages/error.py),
the resource schemas serializer (src/scim2_models/resources/resource.py)
and the PATCH application engine (src/scim2_models/messages/patch_op.py,
urn.py).  Python functions become Lean functions; in-place mutation
becomes explicit state passing; raised exceptions become Except errors.
Each definition carries a reference to the source construct it embeds.
-/

namespace Scim

/-! ### String helpers

Python string primitives used by the library, restricted to the ASCII
strings the library manipulates. -/

/-- Python str.lower, character by character (ASCII). -/
def pyLower (s : String) : String := ⟨s.data.map Char.toLower⟩

/-- Python membership test for a character in a string (c in s). -/
def containsChar (s : String) (c : Char) : Bool := s.data.contains c

/-- Python substring containment test (pat in s): the pattern's characters
occur contiguously inside the string's characters. -/
def containsSub (s pat : String) : Bool := decide (pat.data <:+: s.data)

/-- Python s.startswith(pre). -/
def pyStartsWith (s pre : String) : Bool := pre.data.isPrefixOf s.data

/-- Python s.rsplit with separator a colon and maxsplit 1: the text before the
last colon paired with the text after it.  Call sites only apply it to strings
containing a colon; on a colon-free string rsplit yields a single-element
list, rendered here by returning the whole string in both components. -/
def rsplitColon (s : String) : String × String :=
  if containsChar s ':' then
    let r := s.data.reverse
    let t := r.takeWhile (fun c => c != ':')
    (⟨(r.drop (t.length + 1)).reverse⟩, ⟨t.reverse⟩)
  else (s, s)

/-- From src/scim2_models/utils.py, _normalize_attribute_name: remove all
non-alphanumeric characters and lowercase, except that names containing a
colon (extension attribute URNs) are only lowercased. -/
def normalizeAttributeName (attributeName : String) : String :=
  let isExtensionAttribute := containsChar attributeName ':'
  let s := if isExtensionAttribute then attributeName
    else ⟨attributeName.data.filter (fun c => c.isAlpha || c.isDigit)⟩
  pyLower s

/-! ### Annotations (src/scim2_models/annotations.py) -/

/-- Mutability annotation values. -/
inductive Mutability where
  | readOnly
  | readWrite
  | immutable
  | writeOnly
deriving DecidableEq, Repr

/-- Returned annotation values. -/
inductive Returned where
  | always
  | never
  | dfault
  | request
deriving DecidableEq, Repr

/-- Required annotation values. -/
inductive Required where
  | true
  | false
deriving DecidableEq, Repr

/-! ### Contexts (src/scim2_models/context.py) -/

/-- The eleven SCIM validation / serialization contexts. -/
inductive Context where
  | DEFAULT
  | RESOURCE_CREATION_REQUEST
  | RESOURCE_CREATION_RESPONSE
  | RESOURCE_QUERY_REQUEST
  | RESOURCE_QUERY_RESPONSE
  | RESOURCE_REPLACEMENT_REQUEST
  | RESOURCE_REPLACEMENT_RESPONSE
  | SEARCH_REQUEST
  | SEARCH_RESPONSE
  | RESOURCE_PATCH_REQUEST
  | RESOURCE_PATCH_RESPONSE
deriving DecidableEq, Repr

/-- Context.is_request. -/
def Context.isRequest : Context → Bool
  | .RESOURCE_CREATION_REQUEST => true
  | .RESOURCE_QUERY_REQUEST => true
  | .RESOURCE_REPLACEMENT_REQUEST => true
  | .SEARCH_REQUEST => true
  | .RESOURCE_PATCH_REQUEST => true
  | _ => false

/-- Context.is_response. -/
def Context.isResponse : Context → Bool
  | .RESOURCE_CREATION_RESPONSE => true
  | .RESOURCE_QUERY_RESPONSE => true
  | .RESOURCE_REPLACEMENT_RESPONSE => true
  | .SEARCH_RESPONSE => true
  | .RESOURCE_PATCH_RESPONSE => true
  | _ => false

/-! ### Context policy engine (src/scim2_models/base.py) -/

/-- The single error raised by the mutability request validator. -/
inductive MutabilityError where
  | mutabilityError
deriving DecidableEq, Repr

/-- From BaseModel.check_request_attributes_mutability: per-field request
validation.  The context argument models info.context.get("scim") (none when
no context was passed).  A PydanticCustomError raise becomes an error result;
returning None (the silent drop) becomes ok none. -/
def checkRequestAttributesMutability (ctx : Option Context) (mu : Mutability)
    (value : Option α) : Except MutabilityError (Option α) :=
  match ctx with
  | none => .ok value
  | some c =>
    if ¬ c.isRequest then .ok value
    else if (c = .RESOURCE_QUERY_REQUEST ∨ c = .SEARCH_REQUEST) ∧ mu = .writeOnly then
      .error .mutabilityError
    else if (c = .RESOURCE_CREATION_REQUEST ∨ c = .RESOURCE_REPLACEMENT_REQUEST)
        ∧ mu = .readOnly then
      .ok none
    else .ok value

/-- From base.py, contains_attribute_or_subattributes. -/
def containsAttributeOrSubattributes (attributeUrns : List String)
    (attributeUrn : String) : Bool :=
  attributeUrns.contains attributeUrn
    || attributeUrns.any (fun item =>
        (attributeUrn ++ ".").isPrefixOf item || (attributeUrn ++ ":").isPrefixOf item)

/-- From BaseModel.scim_request_serializer: request-direction omission of a
field value, driven by the Mutability annotation. -/
def scimRequestSerializer (ctx : Option Context) (mu : Mutability)
    (value : Option α) : Option α :=
  if (ctx = some .RESOURCE_CREATION_REQUEST ∨ ctx = some .RESOURCE_REPLACEMENT_REQUEST)
      ∧ mu = .readOnly then none
  else if (ctx = some .RESOURCE_QUERY_REQUEST ∨ ctx = some .SEARCH_REQUEST)
      ∧ mu = .writeOnly then none
  else value

/-- From BaseModel.scim_response_serializer: response-direction omission of a
field value, driven by the Returned annotation and the included / excluded
attribute URN lists. -/
def scimResponseSerializer (ret : Returned) (attributeUrn : String)
    (includedUrns excludedUrns : List String) (value : Option α) : Option α :=
  let urn := normalizeAttributeName attributeUrn
  let inc := includedUrns.map normalizeAttributeName
  let exc := excludedUrns.map normalizeAttributeName
  if ret = .never then none
  else if ret = .dfault
      ∧ ((inc ≠ [] ∧ ¬ containsAttributeOrSubattributes inc urn) ∨ exc.contains urn) then
    none
  else if ret = .request ∧ ¬ inc.contains urn then none
  else value

/-- From BaseModel.scim_serializer: the per-field serializer pipeline; the
request pass runs when the context is a request context, the response pass
when it is a response context. -/
def scimSerializer (ctx : Option Context) (mu : Mutability) (ret : Returned)
    (attributeUrn : String) (includedUrns excludedUrns : List String)
    (value : Option α) : Option α :=
  let v := value
  let v := match ctx with
    | some c => if c.isRequest then scimRequestSerializer ctx mu v else v
    | none => v
  match ctx with
  | some c =>
    if c.isResponse then scimResponseSerializer ret attributeUrn includedUrns excludedUrns v
    else v
  | none => v

/-- A declared field of a model together with its annotations and the value it
holds on one instance, as used when serializing or validating that instance:
the serialization name, the Mutability and Returned annotations, the attribute
URN, and the current value. -/
structure SerField where
  name : String
  mutability : Mutability
  returned : Returned
  urn : String
  value : Option String
deriving DecidableEq, Repr

/-- From BaseModel.model_dump composed with scim_serializer and
model_serializer_exclude_none: every field runs through the serializer
pipeline and fields whose result is None are removed from the output. -/
def modelDumpFields (ctx : Option Context) (includedUrns excludedUrns : List String)
    (fields : List SerField) : List (String × String) :=
  fields.filterMap (fun f =>
    (scimSerializer ctx f.mutability f.returned f.urn includedUrns excludedUrns f.value).map
      (fun v => (f.name, v)))

/-- The errors raised by the returnability response validator. -/
inductive ReturnedError where
  | alwaysMissing (field : String)
  | neverSet (field : String)
deriving DecidableEq, Repr

/-- The field loop of BaseModel.check_response_attributes_returnability:
raise on the first field whose Returned annotation is violated. -/
def checkReturnabilityFields : List SerField → Except ReturnedError Unit
  | [] => .ok ()
  | f :: rest =>
    if f.returned = .always ∧ f.value = none then .error (.alwaysMissing f.name)
    else if f.returned = .never ∧ f.value ≠ none then .error (.neverSet f.name)
    else checkReturnabilityFields rest

/-- From BaseModel.check_response_attributes_returnability: the model
validator that, in response contexts only, rejects instances with a null
Returned.always field or a non-null Returned.never field. -/
def checkResponseAttributesReturnability (ctx : Option Context)
    (fields : List SerField) : Except ReturnedError Unit :=
  match ctx with
  | none => .ok ()
  | some c =>
    if ¬ c.isResponse then .ok ()
    else checkReturnabilityFields fields

/-- The fields of a User instance relevant to responses, as declared in
src/scim2_models/resources/resource.py and resources/user.py: id is
Mutability.read_only / Returned.always, user_name is read-write / default,
password is write_only / Returned.never.  This instance has id = None and
password = None. -/
def userNoIdFields : List SerField :=
  [ { name := "id", mutability := .readOnly, returned := .always,
      urn := "urn:ietf:params:scim:schemas:core:2.0:User:id", value := none },
    { name := "userName", mutability := .readWrite, returned := .dfault,
      urn := "urn:ietf:params:scim:schemas:core:2.0:User:userName",
      value := some "bjensen" },
    { name := "password", mutability := .writeOnly, returned := .never,
      urn := "urn:ietf:params:scim:schemas:core:2.0:User:password", value := none } ]

/-! ### Claims C3, C4, C5 -/

/-- Claim C3, evidence of the code bug: in the resource-creation-request
context the validator silently drops a non-null read-only value exactly as in
the replacement-request context (ok none, no error), although the claim, the
docstring of Context.RESOURCE_CREATION_REQUEST and the library's own test
suite state that creation requests must reject read-only values. -/
theorem C3_creation_request_readonly_silently_dropped :
    checkRequestAttributesMutability (some .RESOURCE_CREATION_REQUEST) .readOnly (some "x")
      = (.ok none : Except MutabilityError (Option String))
    ∧ checkRequestAttributesMutability (some .RESOURCE_REPLACEMENT_REQUEST) .readOnly (some "x")
      = (.ok none : Except MutabilityError (Option String)) :=
  ⟨rfl, rfl⟩

/-- Claim C4, counterexample: in the DEFAULT context a Returned.never field
(password) with a non-null value appears in the serialized output, and in the
resource-creation-request context the response returnability rules do not run
either, so the write-only / Returned.never password also survives the
serializer; the claim that a Returned.never field is absent from the output in
all eleven contexts is therefore false. -/
theorem C4_counterexample_never_field_serialized :
    modelDumpFields (some .DEFAULT) [] []
      [ { name := "password", mutability := .writeOnly, returned := .never,
          urn := "urn:ietf:params:scim:schemas:core:2.0:User:password",
          value := some "secret" } ]
      = [("password", "secret")]
    ∧ scimSerializer (some .RESOURCE_CREATION_REQUEST) .writeOnly .never
        "urn:ietf:params:scim:schemas:core:2.0:User:password" [] [] (some "secret")
      = some "secret" :=
  ⟨rfl, rfl⟩

/-- Claim C4, amended: in every response context (and only there does the
returnability pass run), a field annotated Returned.never is omitted from the
serialized output, for every mutability annotation and every combination of
included and excluded attribute URN lists. -/
theorem C4_amended_never_field_omitted_in_every_response_context :
    ∀ (c : Context), c.isResponse = true →
    ∀ (mu : Mutability) (urn : String) (inc exc : List String) (v : Option String),
      scimSerializer (some c) mu .never urn inc exc v = none := by
  intro c hc mu urn inc exc v
  cases c <;> simp [Context.isResponse] at hc <;>
    simp [scimSerializer, scimResponseSerializer, Context.isRequest, Context.isResponse]

/-- Witness for the amended claim C4 at a concrete response context. -/
theorem C4_amended_witness :
    scimSerializer (some .RESOURCE_CREATION_RESPONSE) .writeOnly .never
      "urn:ietf:params:scim:schemas:core:2.0:User:password" [] [] (some "secret")
      = none :=
  C4_amended_never_field_omitted_in_every_response_context
    .RESOURCE_CREATION_RESPONSE rfl .writeOnly _ [] [] _

/-- Claim C5, counterexample: serializing (model_dump) a User whose
Returned.always field id is None in the resource-creation-response context
produces output with id omitted; the dump pipeline is total and raises no
"returned always but missing" error — that error belongs to validation. -/
theorem C5_counterexample_dump_with_null_id_produces_output :
    modelDumpFields (some .RESOURCE_CREATION_RESPONSE) [] [] userNoIdFields
      = [("userName", "bjensen")] :=
  rfl

/-- Claim C5, amended: in every response context, validating a User instance
whose id is None raises the "returned always but missing" error for id, while
serializing the same instance succeeds and merely omits the null id from the
output. -/
theorem C5_amended_validate_raises_dump_omits :
    ∀ (c : Context), c.isResponse = true →
      checkResponseAttributesReturnability (some c) userNoIdFields
        = .error (.alwaysMissing "id")
      ∧ modelDumpFields (some c) [] [] userNoIdFields = [("userName", "bjensen")] := by
  intro c hc
  cases c <;> simp [Context.isResponse] at hc <;> exact ⟨rfl, rfl⟩

/-- Witness for the amended claim C5 at the creation-response context. -/
theorem C5_amended_witness :
    checkResponseAttributesReturnability (some .RESOURCE_CREATION_RESPONSE) userNoIdFields
      = .error (.alwaysMissing "id")
    ∧ modelDumpFields (some .RESOURCE_CREATION_RESPONSE) [] [] userNoIdFields
      = [("userName", "bjensen")] :=
  C5_amended_validate_raises_dump_omits .RESOURCE_CREATION_RESPONSE rfl

/-! ### Resource schemas serialization (src/scim2_models/resources/resource.py) -/

/-- A resource instance reduced to what the schemas field serializer inspects:
the value of its schemas attribute, and for every extension declared on its
type the extension schema URN together with whether an extension instance is
actually present on this resource. -/
structure ResourceSchemas where
  schemas : List String
  extensions : List (String × Bool)
deriving DecidableEq, Repr

/-- From Resource.get_extension_models: the keys, i.e. the schema URNs of all
declared extension models, present or not. -/
def getExtensionModelUrns (r : ResourceSchemas) : List String :=
  r.extensions.map Prod.fst

/-- From Resource.set_extension_schemas, the field_serializer on schemas:
the instance's schemas value followed by every declared extension schema URN
not already listed. -/
def setExtensionSchemas (r : ResourceSchemas) : List String :=
  r.schemas ++ (getExtensionModelUrns r).filter (fun s => ¬ r.schemas.contains s)

/-- Stated from the claim's words, for comparison with the code: the schema
URNs of the extensions actually present on the instance. -/
def presentExtensionUrns (r : ResourceSchemas) : List String :=
  (r.extensions.filter Prod.snd).map Prod.fst

/-- Claim C2, counterexample: a User that declares the enterprise extension
but carries no extension instance serializes a schemas list containing the
enterprise URN, although no extension is present; the declared-but-absent
URN does appear, contradicting the claim. -/
theorem C2_counterexample_absent_extension_urn_serialized :
    presentExtensionUrns
      { schemas := ["urn:ietf:params:scim:schemas:core:2.0:User"],
        extensions :=
          [("urn:ietf:params:scim:schemas:extension:enterprise:2.0:User", Bool.false)] }
      = []
    ∧ setExtensionSchemas
      { schemas := ["urn:ietf:params:scim:schemas:core:2.0:User"],
        extensions :=
          [("urn:ietf:params:scim:schemas:extension:enterprise:2.0:User", Bool.false)] }
      = ["urn:ietf:params:scim:schemas:core:2.0:User",
         "urn:ietf:params:scim:schemas:extension:enterprise:2.0:User"] := by
  refine ⟨rfl, by decide⟩

/-- Claim C2, amended: the serialized schemas list is the instance's schemas
value followed by the URN of every declared extension (present or not),
deduplicated against the schemas value: it keeps the schemas value as a
prefix, contains exactly the schemas entries and declared extension URNs, and
has no duplicates when the inputs have none. -/
theorem C2_amended_schemas_are_root_plus_declared :
    ∀ r : ResourceSchemas, r.schemas.Nodup → (getExtensionModelUrns r).Nodup →
      (setExtensionSchemas r).Nodup
      ∧ r.schemas <+: setExtensionSchemas r
      ∧ ∀ u, u ∈ setExtensionSchemas r ↔ (u ∈ r.schemas ∨ u ∈ getExtensionModelUrns r) := by
  intro r h1 h2
  refine ⟨?_, List.prefix_append _ _, ?_⟩
  · refine List.Nodup.append h1 (List.Nodup.filter _ h2) ?_
    intro a ha hmem
    have := List.of_mem_filter hmem
    simp only [decide_not, decide_eq_true_eq, Bool.not_eq_true',
      decide_eq_false_iff_not] at this
    exact this (List.elem_iff.mpr ha)
  · intro u
    constructor
    · intro hu
      rcases List.mem_append.mp hu with h | h
      · exact Or.inl h
      · exact Or.inr (List.mem_of_mem_filter h)
    · intro hu
      rcases hu with h | h
      · exact List.mem_append.mpr (Or.inl h)
      · by_cases hs : u ∈ r.schemas
        · exact List.mem_append.mpr (Or.inl hs)
        · refine List.mem_append.mpr (Or.inr (List.mem_filter.mpr ⟨h, ?_⟩))
          simp only [decide_not, decide_eq_true_eq, Bool.not_eq_true',
            decide_eq_false_iff_not]
          intro hc
          exact hs (List.elem_iff.mp hc)

/-- Witness for the amended claim C2 at a concrete resource. -/
theorem C2_amended_witness :
    (setExtensionSchemas
      { schemas := ["urn:ietf:params:scim:schemas:core:2.0:User"],
        extensions :=
          [("urn:ietf:params:scim:schemas:extension:enterprise:2.0:User", Bool.false)] }).Nodup :=
  (C2_amended_schemas_are_root_plus_declared _ (by decide) (by decide)).1

/-! ### Path syntax (src/scim2_models/path.py and src/scim2_models/utils.py) -/

/-- The whitespace characters matched by a Python regex \s (ASCII). -/
def isPySpace (c : Char) : Bool :=
  c = ' ' || c = '\t' || c = '\n' || c = '\r' || c = '\x0b' || c = '\x0c'

/-- Python path[0].isdigit() guarded by non-emptiness: true when the string
starts with a digit. -/
def startsWithDigit (s : String) : Bool :=
  match s.data with
  | [] => Bool.false
  | c :: _ => c.isDigit

/-- The bracket class of the path regex (same expression in path.py and in
utils.py): letters, digits, dot, underscore, colon, hyphen, square brackets,
double quote, equals sign and whitespace. -/
def isPathTailChar (c : Char) : Bool :=
  c.isAlpha || c.isDigit || c = '.' || c = '_' || c = ':' || c = '-'
    || c = '[' || c = ']' || c = '"' || c = '=' || isPySpace c

/-- re.match of the anchored path pattern: the first character is a letter and
every later character lies in the bracket class.  The class contains the
newline character, so the dollar-before-trailing-newline subtlety of re
changes nothing here. -/
def matchesValidPathPattern (s : String) : Bool :=
  match s.data with
  | [] => Bool.false
  | c :: rest => c.isAlpha && rest.all isPathTailChar

/-- Python s.endswith for a colon: the last character is a colon. -/
def endsWithColon (s : String) : Bool := s.data.getLast? == some ':'

/-- Python str.split with a one-character separator, on the character list;
splitting the empty list gives one empty piece. -/
def splitCharList (sep : Char) : List Char → List (List Char)
  | [] => [[]]
  | c :: rest =>
    let r := splitCharList sep rest
    if c = sep then [] :: r
    else (c :: r.headI) :: r.tail

/-- Python str.split with a one-character separator. -/
def pySplitChar (sep : Char) (s : String) : List String :=
  (splitCharList sep s.data).map (fun cs => ⟨cs⟩)

/-- The two rejection causes of URN.check_syntax. -/
inductive UrnSynError where
  | noUrnStart
  | tooFewParts
deriving DecidableEq, Repr

/-- From URN.check_syntax in src/scim2_models/path.py: the text must start
with urn: and splitting it on colons must give at least 3 segments. -/
def urnCheckSyntax (path : String) : Option UrnSynError :=
  if ¬ (pyStartsWith path "urn:" = true) then some .noUrnStart
  else if (pySplitChar ':' path).length < 3 then some .tooFewParts
  else none

/-- The rejection causes of Path.check_syntax. -/
inductive PathSynError where
  | digitStart
  | doubleDot
  | invalidChar
  | trailingColon
  | invalidUrn (e : UrnSynError)
deriving DecidableEq, Repr

/-- From Path.check_syntax in src/scim2_models/path.py: the empty path (the
resource root) is accepted; otherwise the checks run in source order — leading
digit, double dot, the character pattern, a trailing colon, and, for paths
containing a colon, URN.check_syntax on the lowercased text before the last
colon. -/
def pathCheckSyntax (path : String) : Option PathSynError :=
  if path = "" then none
  else if startsWithDigit path then some .digitStart
  else if containsSub path ".." then some .doubleDot
  else if ¬ matchesValidPathPattern path then some .invalidChar
  else if endsWithColon path then some .trailingColon
  else if containsChar path ':' then
    match urnCheckSyntax (pyLower (rsplitColon path).1) with
    | some e => some (.invalidUrn e)
    | none => none
  else none

/-- Python str.strip: drop leading and trailing whitespace. -/
def pyStrip (s : String) : String :=
  ⟨((s.data.dropWhile isPySpace).reverse.dropWhile isPySpace).reverse⟩

/-- From _validate_scim_urn_syntax in src/scim2_models/utils.py: the boolean
URN checker used by PATCH path validation; the part before the last colon must
start with urn: and have at least 4 colon segments, and the part after it must
be non-empty and not start with a digit. -/
def validateScimUrnSyntax (path : String) : Bool :=
  if ¬ (pyStartsWith path "urn:" = true) then Bool.false
  else
    let urnPart := (rsplitColon path).1
    let attrPart := (rsplitColon path).2
    if (pySplitChar ':' urnPart).length < 4 then Bool.false
    else if attrPart = "" || startsWithDigit attrPart then Bool.false
    else Bool.true

/-- From _validate_scim_path_syntax in src/scim2_models/utils.py: the boolean
path checker used by PATCH path validation; note that unlike Path.check_syntax
it rejects the empty string. -/
def validateScimPathSyntax (path : String) : Bool :=
  if path = "" || pyStrip path = "" then Bool.false
  else if startsWithDigit path then Bool.false
  else if containsSub path ".." then Bool.false
  else if ¬ matchesValidPathPattern path then Bool.false
  else if containsChar path ':' then validateScimUrnSyntax path
  else Bool.true

theorem splitCharList_ne_nil (sep : Char) (xs : List Char) :
    splitCharList sep xs ≠ [] := by
  cases xs with
  | nil => simp [splitCharList]
  | cons c rest =>
    simp only [splitCharList]
    split <;> simp

theorem charOfNat_toNat {n : Nat} (h : n < 0xd800) : (Char.ofNat n).toNat = n := by
  simp [Char.ofNat, Char.toNat]
  split
  · rfl
  · rename_i hc
    exfalso
    exact hc (Or.inl (by omega))

theorem toLower_eq_colon_iff (c : Char) : (c.toLower = ':') ↔ (c = ':') := by
  unfold Char.toLower
  simp only
  by_cases h : c.toNat ≥ 65 ∧ c.toNat ≤ 90
  · rw [if_pos h]
    constructor
    · intro he
      have h2 : (Char.ofNat (c.toNat + 32)).toNat = 58 := by rw [he]; rfl
      have h3 : (Char.ofNat (c.toNat + 32)).toNat = c.toNat + 32 :=
        charOfNat_toNat (by omega)
      omega
    · intro he
      subst he
      exact absurd h (by decide)
  · rw [if_neg h]

theorem splitCharList_map_toLower_length (xs : List Char) :
    (splitCharList ':' (xs.map Char.toLower)).length
      = (splitCharList ':' xs).length := by
  induction xs with
  | nil => rfl
  | cons c rest ih =>
    simp only [List.map_cons, splitCharList]
    by_cases h : c = ':'
    · rw [if_pos ((toLower_eq_colon_iff c).mpr h), if_pos h]
      simp [ih]
    · rw [if_neg (fun hc => h ((toLower_eq_colon_iff c).mp hc)), if_neg h]
      simp [List.length_tail, ih]

theorem pySplitChar_pyLower_length (s : String) :
    (pySplitChar ':' (pyLower s)).length = (pySplitChar ':' s).length := by
  simp only [pySplitChar, pyLower, List.length_map]
  exact splitCharList_map_toLower_length s.data

theorem matchesValidPathPattern_chars {s : String}
    (hp : matchesValidPathPattern s = true) :
    ∀ c ∈ s.data, isPathTailChar c = true := by
  unfold matchesValidPathPattern at hp
  intro a ha
  cases hdata : s.data with
  | nil => rw [hdata] at ha; cases ha
  | cons c rest =>
    rw [hdata] at hp ha
    simp only [Bool.and_eq_true, List.all_eq_true] at hp
    rcases List.mem_cons.mp ha with h | h
    · subst h
      simp [isPathTailChar, hp.1]
    · exact hp.2 a h

theorem pathCheckSyntax_none_props {s : String} (h : pathCheckSyntax s = none)
    (hs : s ≠ "") :
    startsWithDigit s = false ∧ containsSub s ".." = false
    ∧ matchesValidPathPattern s = true ∧ endsWithColon s = false
    ∧ (containsChar s ':' = true →
        urnCheckSyntax (pyLower (rsplitColon s).1) = none) := by
  unfold pathCheckSyntax at h
  rw [if_neg hs] at h
  by_cases h1 : startsWithDigit s = true
  · rw [if_pos h1] at h; cases h
  rw [if_neg h1] at h
  by_cases h2 : containsSub s ".." = true
  · rw [if_pos h2] at h; cases h
  rw [if_neg h2] at h
  by_cases h3 : matchesValidPathPattern s = true
  · rw [if_neg (by simp [h3])] at h
    by_cases h4 : endsWithColon s = true
    · rw [if_pos h4] at h; cases h
    rw [if_neg h4] at h
    refine ⟨Bool.not_eq_true _ ▸ h1, Bool.not_eq_true _ ▸ h2, h3,
      Bool.not_eq_true _ ▸ h4, ?_⟩
    intro h5
    rw [if_pos h5] at h
    cases he : urnCheckSyntax (pyLower (rsplitColon s).1) with
    | none => rfl
    | some e => rw [he] at h; cases h
  · rw [if_pos (by simp [h3])] at h; cases h

theorem urnCheckSyntax_none_props {s : String} (h : urnCheckSyntax s = none) :
    pyStartsWith s "urn:" = true ∧ ¬ (pySplitChar ':' s).length < 3 := by
  unfold urnCheckSyntax at h
  by_cases h1 : pyStartsWith s "urn:" = true
  · rw [if_neg (by simp [h1])] at h
    by_cases h2 : (pySplitChar ':' s).length < 3
    · rw [if_pos h2] at h; cases h
    · exact ⟨h1, h2⟩
  · rw [if_pos (by simp [h1])] at h; cases h

theorem validateScimUrnSyntax_true_props {s : String}
    (h : validateScimUrnSyntax s = true) :
    pyStartsWith s "urn:" = true ∧ ¬ (pySplitChar ':' (rsplitColon s).1).length < 4
    ∧ (rsplitColon s).2 ≠ "" ∧ startsWithDigit (rsplitColon s).2 = false := by
  unfold validateScimUrnSyntax at h
  by_cases h1 : pyStartsWith s "urn:" = true
  · rw [if_neg (by simp [h1])] at h
    simp only at h
    by_cases h2 : (pySplitChar ':' (rsplitColon s).1).length < 4
    · rw [if_pos h2] at h; cases h
    rw [if_neg h2] at h
    by_cases h3 : ((rsplitColon s).2 = "" || startsWithDigit (rsplitColon s).2) = true
    · rw [if_pos h3] at h; cases h
    · simp only [Bool.or_eq_true, decide_eq_true_eq, not_or] at h3
      exact ⟨h1, h2, h3.1, Bool.not_eq_true _ ▸ h3.2⟩
  · rw [if_pos (by simp [h1])] at h; cases h

theorem validateScimPathSyntax_true_props {s : String}
    (h : validateScimPathSyntax s = true) :
    s ≠ "" ∧ startsWithDigit s = false ∧ containsSub s ".." = false
    ∧ matchesValidPathPattern s = true
    ∧ (containsChar s ':' = true → validateScimUrnSyntax s = true) := by
  unfold validateScimPathSyntax at h
  by_cases h0 : (s = "" || pyStrip s = "") = true
  · rw [if_pos h0] at h; cases h
  rw [if_neg h0] at h
  simp only [Bool.or_eq_true, decide_eq_true_eq, not_or] at h0
  by_cases h1 : startsWithDigit s = true
  · rw [if_pos h1] at h; cases h
  rw [if_neg h1] at h
  by_cases h2 : containsSub s ".." = true
  · rw [if_pos h2] at h; cases h
  rw [if_neg h2] at h
  by_cases h3 : matchesValidPathPattern s = true
  · rw [if_neg (by simp [h3])] at h
    refine ⟨h0.1, Bool.not_eq_true _ ▸ h1, Bool.not_eq_true _ ▸ h2, h3, ?_⟩
    intro h4
    rw [if_pos h4] at h
    exact h
  · rw [if_pos (by simp [h3])] at h; cases h

theorem endsWithColon_contains {s : String} (h : endsWithColon s = true) :
    containsChar s ':' = true := by
  unfold endsWithColon at h
  unfold containsChar
  rw [beq_iff_eq] at h
  exact List.elem_iff.mpr (List.mem_of_mem_getLast? h)

theorem endsWithColon_attr_empty {s : String} (h : endsWithColon s = true) :
    (rsplitColon s).2 = "" := by
  unfold rsplitColon
  rw [if_pos (endsWithColon_contains h)]
  unfold endsWithColon at h
  rw [beq_iff_eq] at h
  have hrev : s.data.reverse.head? = some ':' := by
    rw [List.head?_reverse]
    exact h
  cases hd : s.data.reverse with
  | nil => rw [hd] at hrev; cases hrev
  | cons c t =>
    rw [hd] at hrev
    simp only [List.head?_cons, Option.some.injEq] at hrev
    subst hrev
    simp [hd, List.takeWhile]

/-- Claim C6: Path parsing (Path.check_syntax) accepts the empty string, which
denotes the resource root, and rejects every input that starts with a digit,
contains consecutive dots, contains a character outside the allowed set,
carries a URN prefix (the text before the last colon) with fewer than 3
colon-separated segments, or has nothing after its final colon.  The boolean
PATCH-side checker _validate_scim_path_syntax rejects the same malformed
families. -/
theorem C6_path_syntax_rules :
    pathCheckSyntax "" = none
    ∧ (∀ s : String, startsWithDigit s = true →
        pathCheckSyntax s ≠ none ∧ validateScimPathSyntax s = false)
    ∧ (∀ s : String, containsSub s ".." = true →
        pathCheckSyntax s ≠ none ∧ validateScimPathSyntax s = false)
    ∧ (∀ s : String, (∃ c ∈ s.data, isPathTailChar c = false) →
        pathCheckSyntax s ≠ none ∧ validateScimPathSyntax s = false)
    ∧ (∀ s : String, containsChar s ':' = true →
        (pySplitChar ':' (rsplitColon s).1).length < 3 →
        pathCheckSyntax s ≠ none ∧ validateScimPathSyntax s = false)
    ∧ (∀ s : String, endsWithColon s = true →
        pathCheckSyntax s ≠ none ∧ validateScimPathSyntax s = false) := by
  refine ⟨rfl, ?_, ?_, ?_, ?_, ?_⟩
  · intro s h
    constructor
    · intro hn
      by_cases hs : s = ""
      · subst hs; simp [startsWithDigit] at h
      · exact absurd (pathCheckSyntax_none_props hn hs).1 (by simp [h])
    · rw [Bool.eq_false_iff]
      intro hv
      exact absurd (validateScimPathSyntax_true_props hv).2.1 (by simp [h])
  · intro s h
    constructor
    · intro hn
      by_cases hs : s = ""
      · subst hs; exact absurd h (by decide)
      · exact absurd (pathCheckSyntax_none_props hn hs).2.1 (by simp [h])
    · rw [Bool.eq_false_iff]
      intro hv
      exact absurd (validateScimPathSyntax_true_props hv).2.2.1 (by simp [h])
  · intro s h
    obtain ⟨c, hc, hbad⟩ := h
    constructor
    · intro hn
      by_cases hs : s = ""
      · subst hs; cases hc
      · have := (pathCheckSyntax_none_props hn hs).2.2.1
        exact absurd (matchesValidPathPattern_chars this c hc) (by simp [hbad])
    · rw [Bool.eq_false_iff]
      intro hv
      have := (validateScimPathSyntax_true_props hv).2.2.2.1
      exact absurd (matchesValidPathPattern_chars this c hc) (by simp [hbad])
  · intro s h hlen
    constructor
    · intro hn
      by_cases hs : s = ""
      · subst hs; simp [containsChar] at h
      · have h5 := (pathCheckSyntax_none_props hn hs).2.2.2.2 h
        have := (urnCheckSyntax_none_props h5).2
        rw [pySplitChar_pyLower_length] at this
        exact this hlen
    · rw [Bool.eq_false_iff]
      intro hv
      have h5 := (validateScimPathSyntax_true_props hv).2.2.2.2 h
      have := (validateScimUrnSyntax_true_props h5).2.1
      omega
  · intro s h
    constructor
    · intro hn
      by_cases hs : s = ""
      · subst hs; simp [endsWithColon] at h
      · exact absurd (pathCheckSyntax_none_props hn hs).2.2.2.1 (by simp [h])
    · rw [Bool.eq_false_iff]
      intro hv
      have h5 := (validateScimPathSyntax_true_props hv).2.2.2.2 (endsWithColon_contains h)
      exact (validateScimUrnSyntax_true_props h5).2.2.1 (endsWithColon_attr_empty h)

/-- Witness for claim C6 at concrete inputs, one per rejection family. -/
theorem C6_witness :
    pathCheckSyntax "9a" ≠ none
    ∧ pathCheckSyntax "a..b" ≠ none
    ∧ pathCheckSyntax "a!b" ≠ none
    ∧ pathCheckSyntax "urn:x:attr" ≠ none
    ∧ pathCheckSyntax "a:" ≠ none :=
  ⟨(C6_path_syntax_rules.2.1 "9a" (by decide)).1,
   (C6_path_syntax_rules.2.2.1 "a..b" (by decide)).1,
   (C6_path_syntax_rules.2.2.2.1 "a!b" ⟨'!', by decide, by decide⟩).1,
   (C6_path_syntax_rules.2.2.2.2.1 "urn:x:attr" (by decide) (by decide)).1,
   (C6_path_syntax_rules.2.2.2.2.2 "a:" (by decide)).1⟩

/-! ### Path values and equality (src/scim2_models/path.py) -/

/-- A Path value: Path extends collections.UserString, whose constructor
stores the raw path text in self.data after Path.__init__ ran check_syntax. -/
structure PathV where
  data : String
deriving DecidableEq, Repr

/-- The equality Path inherits from collections.UserString: plain comparison
of the stored strings.  Path overrides no equality operator. -/
def pathEq (p q : PathV) : Bool := p.data == q.data

/-- Path.is_prefix_of: case-insensitive strict prefix test against a dot or
colon separator boundary. -/
def pathIsPrefixOf (p other : PathV) : Bool :=
  let otherStr := pyLower other.data
  let selfStr := pyLower p.data
  if selfStr == otherStr then Bool.false
  else pyStartsWith otherStr (selfStr ++ ".") || pyStartsWith otherStr (selfStr ++ ":")

/-- Claim C9, counterexample: the two syntactically valid path texts userName
and USERNAME differ only in letter case (they agree after case folding), yet
the Path values built from them compare unequal, because Path equality is the
inherited, case-sensitive string comparison. -/
theorem C9_counterexample_case_variants_compare_unequal :
    pathCheckSyntax "userName" = none
    ∧ pathCheckSyntax "USERNAME" = none
    ∧ pyLower "userName" = pyLower "USERNAME"
    ∧ pathEq { data := "userName" } { data := "USERNAME" } = false := by
  refine ⟨by decide, by decide, by decide, by decide⟩

/-- Claim C9, amended: Path equality is exact (case-sensitive) equality of the
stored path texts; case folding plays no part in it (it applies to prefix
matching and resolution instead). -/
theorem C9_amended_path_equality_is_exact_string_equality :
    ∀ p q : PathV, pathEq p q = true ↔ p.data = q.data := by
  intro p q
  simp [pathEq]

/-! ### Exception taxonomy (src/scim2_models/exceptions.py and
src/scim2_models/messages/error.py) -/

/-- The exception classes of the closed taxonomy: the generic SCIMException
base, the ten scimType-keyed subclasses mirroring RFC 7644 Table 9, and the
PathNotFoundException specialization of InvalidPathException. -/
inductive ExcClass where
  | scimException
  | invalidFilter
  | tooMany
  | uniqueness
  | mutability
  | invalidSyntax
  | invalidPath
  | pathNotFound
  | noTarget
  | invalidValue
  | invalidVersion
  | sensitive
deriving DecidableEq, Repr

/-- The class-level status attribute: 409 for UniquenessException, 400
everywhere else. -/
def classStatus : ExcClass → Nat
  | .uniqueness => 409
  | _ => 400

/-- The class-level scim_type attribute; the base class carries the empty
string and PathNotFoundException inherits invalidPath. -/
def classScimType : ExcClass → String
  | .scimException => ""
  | .invalidFilter => "invalidFilter"
  | .tooMany => "tooMany"
  | .uniqueness => "uniqueness"
  | .mutability => "mutability"
  | .invalidSyntax => "invalidSyntax"
  | .invalidPath => "invalidPath"
  | .pathNotFound => "invalidPath"
  | .noTarget => "noTarget"
  | .invalidValue => "invalidValue"
  | .invalidVersion => "invalidVers"
  | .sensitive => "sensitive"

/-- The class-level _default_detail attribute. -/
def classDefaultDetail : ExcClass → String
  | .scimException => "A SCIM error occurred"
  | .invalidFilter => "The specified filter syntax was invalid, or the specified attribute and filter comparison combination is not supported"
  | .tooMany => "The specified filter yields many more results than the server is willing to calculate or process"
  | .uniqueness => "One or more of the attribute values are already in use or are reserved"
  | .mutability => "The attempted modification is not compatible with the target attribute's mutability or current state"
  | .invalidSyntax => "The request body message structure was invalid or did not conform to the request schema"
  | .invalidPath => "The path attribute was invalid or malformed"
  | .pathNotFound => "The specified path references a non-existent field"
  | .noTarget => "The specified path did not yield an attribute or attribute value that could be operated on"
  | .invalidValue => "A required value was missing, or the value specified was not compatible with the operation or attribute type, or resource schema"
  | .invalidVersion => "The specified SCIM protocol version is not supported"
  | .sensitive => "The specified request cannot be completed, due to the passing of sensitive information in a request URI"

/-- Python x or y over an optional string: the first operand unless it is
None or empty (falsy). -/
def pyOrStr (d : Option String) (dflt : String) : String :=
  match d with
  | some s => if s = "" then dflt else s
  | none => dflt

/-- A SCIMException instance: its class, its _detail constructor argument and
(for PathNotFoundException) its field argument. -/
structure SCIMExc where
  cls : ExcClass
  detail : Option String
  field : Option String
deriving DecidableEq, Repr

/-- The PathNotFoundException.__str__ fallback after _detail: the field-based
message, then the class default. -/
def pathNotFoundStr (e : SCIMExc) : String :=
  match e.field with
  | some f => if f = "" then classDefaultDetail .pathNotFound
      else "Field not found: " ++ f
  | none => classDefaultDetail .pathNotFound

/-- Python str(exception): for every class but PathNotFoundException this is
the single Exception argument, detail or self._default_detail as set by
SCIMException.__init__; PathNotFoundException overrides __str__ with the
_detail, field, default chain. -/
def excStr (e : SCIMExc) : String :=
  match e.cls with
  | .pathNotFound =>
    match e.detail with
    | some d => if d = "" then pathNotFoundStr e else d
    | none => pathNotFoundStr e
  | c => pyOrStr e.detail (classDefaultDetail c)

/-- SCIMException.detail, the property: self._detail or self._default_detail
(not overridden by any subclass). -/
def excDetail (e : SCIMExc) : String := pyOrStr e.detail (classDefaultDetail e.cls)

/-- The Error message of src/scim2_models/messages/error.py restricted to the
three fields the conversion uses. -/
structure ErrorMsg where
  status : Option Nat
  scimType : Option String
  detail : Option String
deriving DecidableEq, Repr

/-- SCIMException.to_error: Error(status=self.status,
scim_type=self.scim_type or None, detail=str(self)). -/
def toError (e : SCIMExc) : ErrorMsg :=
  { status := some (classStatus e.cls),
    scimType := if classScimType e.cls = "" then none else some (classScimType e.cls),
    detail := some (excStr e) }

/-- The _SCIM_TYPE_TO_EXCEPTION table with the base class as the lookup
default; PathNotFoundException appears in no table entry. -/
def scimTypeToExceptionClass : String → ExcClass
  | "invalidFilter" => .invalidFilter
  | "tooMany" => .tooMany
  | "uniqueness" => .uniqueness
  | "mutability" => .mutability
  | "invalidSyntax" => .invalidSyntax
  | "invalidPath" => .invalidPath
  | "noTarget" => .noTarget
  | "invalidValue" => .invalidValue
  | "invalidVers" => .invalidVersion
  | "sensitive" => .sensitive
  | _ => .scimException

/-- SCIMException.from_error: look the scimType up in the table (empty-string
key when the message carries none) and build that class from the message's
detail. -/
def fromError (err : ErrorMsg) : SCIMExc :=
  { cls := scimTypeToExceptionClass (pyOrStr err.scimType ""),
    detail := err.detail,
    field := none }

theorem pyOrStr_pyOrStr (d : Option String) (df df2 : String) (hdf : df ≠ "") :
    pyOrStr (some (pyOrStr d df)) df2 = pyOrStr d df := by
  cases d with
  | none => simp [pyOrStr, hdf]
  | some s =>
    by_cases hs : s = ""
    · simp [pyOrStr, hs, hdf]
    · simp [pyOrStr, hs]

/-- Claim C8, counterexample: a PathNotFoundException with detail "boom"
converts to an Error with scimType invalidPath, and from_error turns that
back into the plain InvalidPathException class, not PathNotFoundException;
the taxonomy's specialization does not round-trip to the same class (its
kind, status and detail do survive). -/
theorem C8_counterexample_pathnotfound_class_not_preserved :
    (fromError (toError { cls := .pathNotFound, detail := some "boom", field := none })).cls
      = .invalidPath
    ∧ ExcClass.invalidPath ≠ ExcClass.pathNotFound
    ∧ excDetail (fromError (toError { cls := .pathNotFound, detail := some "boom", field := none }))
      = "boom" := by
  refine ⟨rfl, by decide, rfl⟩

/-- Claim C8, amended: for the generic base and the ten scimType-keyed
exception classes, to_error followed by from_error restores the same class
(hence the same scimType kind and HTTP status) and the same human-readable
detail, for every detail argument; for the PathNotFoundException
specialization the round trip yields InvalidPathException, which still agrees
on kind, status and detail. -/
theorem C8_amended_roundtrip_kind_status_detail :
    (∀ (c : ExcClass) (d : Option String), c ≠ .pathNotFound →
      (fromError (toError { cls := c, detail := d, field := none })).cls = c
      ∧ excDetail (fromError (toError { cls := c, detail := d, field := none }))
          = excDetail { cls := c, detail := d, field := none })
    ∧ (∀ d : Option String,
      (fromError (toError { cls := .pathNotFound, detail := d, field := none })).cls
        = .invalidPath
      ∧ classScimType
          (fromError (toError { cls := .pathNotFound, detail := d, field := none })).cls
        = classScimType .pathNotFound
      ∧ classStatus
          (fromError (toError { cls := .pathNotFound, detail := d, field := none })).cls
        = classStatus .pathNotFound
      ∧ excDetail (fromError (toError { cls := .pathNotFound, detail := d, field := none }))
          = excDetail { cls := .pathNotFound, detail := d, field := none }) := by
  constructor
  · intro c d hc
    cases c <;>
      first
      | exact absurd rfl hc
      | exact ⟨rfl,
          pyOrStr_pyOrStr d (classDefaultDetail _) (classDefaultDetail _) (by decide)⟩
  · intro d
    refine ⟨rfl, rfl, rfl, ?_⟩
    show pyOrStr (some (excStr _)) _ = _
    cases d with
    | none => simp [excStr, pathNotFoundStr, pyOrStr, excDetail, classDefaultDetail]
    | some s =>
      by_cases hs : s = ""
      · simp [excStr, pathNotFoundStr, pyOrStr, hs, excDetail, classDefaultDetail]
      · simp [excStr, pathNotFoundStr, pyOrStr, hs, excDetail]

/-- Witness for the amended claim C8 at a concrete class and detail. -/
theorem C8_amended_witness :
    (fromError (toError { cls := .mutability, detail := some "nope", field := none })).cls
      = .mutability :=
  (C8_amended_roundtrip_kind_status_detail.1 .mutability (some "nope") (by decide)).1

/-! ### A model of pydantic values (instances, payload dicts, primitives)

The navigation and patch engines act on pydantic model instances, decoded
JSON dicts and lists, and primitive values.  PyVal models this value
universe; an object carries its class name so that the embeddings of
type(obj) dispatch can consult the class table below.  In-place mutation is
rendered by returning the updated value. -/

inductive PyVal where
  | vnone
  | vstr (s : String)
  | vbool (b : Bool)
  | vlist (xs : List PyVal)
  | vdict (entries : List (String × PyVal))
  | vobj (cls : String) (fields : List (String × PyVal))

/-- Python value is None. -/
def isNoneV : PyVal → Bool
  | .vnone => true
  | _ => false

/-- Python truthiness of a value. -/
def pyTruthy : PyVal → Bool
  | .vnone => false
  | .vstr s => ¬ s = ""
  | .vbool b => b
  | .vlist xs => ¬ xs.isEmpty
  | .vdict es => ¬ es.isEmpty
  | .vobj _ _ => true

/-- Key lookup in a dict or field table. -/
def lookupEntry (es : List (String × PyVal)) (k : String) : Option PyVal :=
  (es.find? (fun e => e.1 == k)).map Prod.snd

/-- Every key of the first table occurs in the second. -/
def keysSubset (xs ys : List (String × PyVal)) : Bool :=
  xs.all (fun e => (lookupEntry ys e.1).isSome)

mutual

/-- Python == on the value universe: None, strings and booleans compare by
value, lists pointwise, dicts by key set and per-key values, pydantic models
(BaseModel.__eq__) by class and per-field values; values of different shapes
compare unequal (a model never equals a dict). -/
def pyEq : PyVal → PyVal → Bool
  | .vnone, .vnone => Bool.true
  | .vstr a, .vstr b => a == b
  | .vbool a, .vbool b => a == b
  | .vlist xs, .vlist ys => pyEqList xs ys
  | .vdict xs, .vdict ys => pyEqEntries xs ys && keysSubset ys xs
  | .vobj c fs, .vobj c2 fs2 => c == c2 && pyEqEntries fs fs2 && keysSubset fs2 fs
  | _, _ => Bool.false

/-- Pointwise list equality. -/
def pyEqList : List PyVal → List PyVal → Bool
  | [], [] => Bool.true
  | x :: xs, y :: ys => pyEq x y && pyEqList xs ys
  | _, _ => Bool.false

/-- Every entry of the first table has an equal value under the same key in
the second. -/
def pyEqEntries : List (String × PyVal) → List (String × PyVal) → Bool
  | [], _ => Bool.true
  | (k, v) :: rest, ys =>
    (match lookupEntry ys k with
     | some w => pyEq v w
     | none => Bool.false) && pyEqEntries rest ys

end

/-! ### The declared classes (resources/user.py, resources/enterprise_user.py,
resources/resource.py)

Each entry of the class table records what the library reads back from a
declared pydantic model at run time: model_fields (python name, serialization
alias, multiplicity, complex root type, declared default), the Resource /
Extension flavor, the class __schema__ and the declared extensions.  Fields
of User that no claim touches (title, locale, photos, addresses, and so on)
are elided; they take no part in the verified operations. -/

/-- One model_fields entry: python field name, serialization alias,
get_field_multiplicity, the complex class behind get_field_root_type (none
abstracts the primitive types, whose constructor-based parent creation no
claim exercises), and the declared default. -/
structure FieldInfo where
  name : String
  salias : String
  multi : Bool
  rootCls : Option String
  dflt : PyVal

/-- Class-level metadata: the Resource / Extension flavor, __schema__, the
declared extensions (schema URN, extension field name) and model_fields. -/
structure ClassInfo where
  isResource : Bool
  isExtension : Bool
  schemaUrn : Option String
  extensions : List (String × String)
  fields : List FieldInfo

/-- The User core schema URN. -/
def coreUserUrn : String := "urn:ietf:params:scim:schemas:core:2.0:User"

/-- The EnterpriseUser extension schema URN. -/
def enterpriseUrn : String :=
  "urn:ietf:params:scim:schemas:extension:enterprise:2.0:User"

/-- The Email complex attribute of resources/user.py. -/
def emailClassInfo : ClassInfo :=
  { isResource := false, isExtension := false, schemaUrn := none, extensions := [],
    fields :=
      [ { name := "value", salias := "value", multi := false, rootCls := none,
          dflt := .vnone },
        { name := "display", salias := "display", multi := false, rootCls := none,
          dflt := .vnone },
        { name := "type", salias := "type", multi := false, rootCls := none,
          dflt := .vnone },
        { name := "primary", salias := "primary", multi := false, rootCls := none,
          dflt := .vnone } ] }

/-- The Name complex attribute of resources/user.py. -/
def nameClassInfo : ClassInfo :=
  { isResource := false, isExtension := false, schemaUrn := none, extensions := [],
    fields :=
      [ { name := "formatted", salias := "formatted", multi := false,
          rootCls := none, dflt := .vnone },
        { name := "family_name", salias := "familyName", multi := false,
          rootCls := none, dflt := .vnone },
        { name := "given_name", salias := "givenName", multi := false,
          rootCls := none, dflt := .vnone },
        { name := "middle_name", salias := "middleName", multi := false,
          rootCls := none, dflt := .vnone },
        { name := "honorific_prefix", salias := "honorificPrefix", multi := false,
          rootCls := none, dflt := .vnone },
        { name := "honorific_suffix", salias := "honorificSuffix", multi := false,
          rootCls := none, dflt := .vnone } ] }

/-- The Manager complex attribute of resources/enterprise_user.py. -/
def managerClassInfo : ClassInfo :=
  { isResource := false, isExtension := false, schemaUrn := none, extensions := [],
    fields :=
      [ { name := "value", salias := "value", multi := false, rootCls := none,
          dflt := .vnone },
        { name := "ref", salias := "$ref", multi := false, rootCls := none,
          dflt := .vnone },
        { name := "display_name", salias := "displayName", multi := false,
          rootCls := none, dflt := .vnone } ] }

/-- The EnterpriseUser extension of resources/enterprise_user.py.  The
schemas field (inherited from ScimObject) has no class-level default;
instances receive theirs from _populate_schemas_default. -/
def enterpriseUserClassInfo : ClassInfo :=
  { isResource := false, isExtension := true, schemaUrn := some enterpriseUrn,
    extensions := [],
    fields :=
      [ { name := "schemas", salias := "schemas", multi := true, rootCls := none,
          dflt := .vnone },
        { name := "employee_number", salias := "employeeNumber", multi := false,
          rootCls := none, dflt := .vnone },
        { name := "cost_center", salias := "costCenter", multi := false,
          rootCls := none, dflt := .vnone },
        { name := "organization", salias := "organization", multi := false,
          rootCls := none, dflt := .vnone },
        { name := "division", salias := "division", multi := false,
          rootCls := none, dflt := .vnone },
        { name := "department", salias := "department", multi := false,
          rootCls := none, dflt := .vnone },
        { name := "manager", salias := "manager", multi := false,
          rootCls := some "Manager", dflt := .vnone } ] }

/-- The User resource of resources/user.py, parameterized with the
EnterpriseUser extension (User[EnterpriseUser]): Resource.__class_getitem__
adds a field named after the extension class, aliased by its schema URN. -/
def userClassInfo : ClassInfo :=
  { isResource := true, isExtension := false, schemaUrn := some coreUserUrn,
    extensions := [(enterpriseUrn, "EnterpriseUser")],
    fields :=
      [ { name := "schemas", salias := "schemas", multi := true, rootCls := none,
          dflt := .vnone },
        { name := "id", salias := "id", multi := false, rootCls := none,
          dflt := .vnone },
        { name := "external_id", salias := "externalId", multi := false,
          rootCls := none, dflt := .vnone },
        { name := "user_name", salias := "userName", multi := false,
          rootCls := none, dflt := .vnone },
        { name := "name", salias := "name", multi := false,
          rootCls := some "Name", dflt := .vnone },
        { name := "display_name", salias := "displayName", multi := false,
          rootCls := none, dflt := .vnone },
        { name := "nick_name", salias := "nickName", multi := false,
          rootCls := none, dflt := .vnone },
        { name := "password", salias := "password", multi := false,
          rootCls := none, dflt := .vnone },
        { name := "emails", salias := "emails", multi := true,
          rootCls := some "Email", dflt := .vnone },
        { name := "EnterpriseUser", salias := enterpriseUrn, multi := false,
          rootCls := some "EnterpriseUser", dflt := .vnone } ] }

/-- The class table: run-time class lookup by name. -/
def classTable : String → Option ClassInfo
  | "User" => some userClassInfo
  | "Email" => some emailClassInfo
  | "Name" => some nameClassInfo
  | "EnterpriseUser" => some enterpriseUserClassInfo
  | "Manager" => some managerClassInfo
  | _ => none

/-! ### Attribute access, assignment and model_dump -/

/-- The errors the engines can surface: the SCIM ValueError / exception
taxonomy raised by the source, plus the plain Python exceptions that escape
it (AttributeError from reading model_fields on a non-model type, TypeError
from subscripting an undefined default, pydantic ValidationError). -/
inductive PyErr where
  | invalidPath
  | noTarget
  | invalidValue
  | pathNotFound
  | attributeError
  | typeError
  | validationError
deriving DecidableEq, Repr

/-- Python getattr on a pydantic instance: pydantic objects carry every
declared field, so a missing entry only arises off the modeled universe and
reads as None. -/
def getattr (v : PyVal) (field : String) : PyVal :=
  match v with
  | .vobj _ fields => (lookupEntry fields field).getD .vnone
  | _ => .vnone

/-- Python hasattr on a pydantic instance. -/
def hasattrV (v : PyVal) (field : String) : Bool :=
  match v with
  | .vobj _ fields => (lookupEntry fields field).isSome
  | _ => false

/-- The class metadata of type(v), for call sites reading model_fields:
reading it on a non-model value (a list, a string) raises AttributeError. -/
def fieldsClassInfo (v : PyVal) : Except PyErr ClassInfo :=
  match v with
  | .vobj cls _ =>
    match classTable cls with
    | some ci => .ok ci
    | none => .error .attributeError
  | _ => .error .attributeError

/-- The class metadata of type(v) when merely queried (getattr with default,
isinstance): no exception, just absence. -/
def classInfoOf (v : PyVal) : Option ClassInfo :=
  match v with
  | .vobj cls _ => classTable cls
  | _ => none

/-- From utils._find_field_name: scan model_fields for a python field name
whose normalized form matches the normalized attribute name. -/
def findFieldName (ci : ClassInfo) (attrName : String) : Option String :=
  (ci.fields.find? (fun fi =>
    normalizeAttributeName fi.name == normalizeAttributeName attrName)).map (·.name)

/-- model_fields lookup by python field name. -/
def getFieldInfo (ci : ClassInfo) (fieldName : String) : Option FieldInfo :=
  ci.fields.find? (fun fi => fi.name == fieldName)

/-- From BaseModel.get_field_multiplicity, queried on an instance's type. -/
def fieldMulti (v : PyVal) (fieldName : String) : Bool :=
  (((classInfoOf v).bind (getFieldInfo · fieldName)).map (·.multi)).getD false

/-- From BaseModel.get_field_root_type restricted to complex classes, queried
on an instance's type. -/
def fieldRootCls (v : PyVal) (fieldName : String) : Option String :=
  ((classInfoOf v).bind (getFieldInfo · fieldName)).bind (·.rootCls)

/-- The declared default of a field as validation sees it: the schemas field
of a ScimObject subclass is populated from __schema__ by
_populate_schemas_default when absent from the payload; every other field
falls back to its model_fields default. -/
def fieldDefaultFor (ci : ClassInfo) (fi : FieldInfo) : PyVal :=
  if fi.name = "schemas" then
    match ci.schemaUrn with
    | some urn => .vlist [.vstr urn]
    | none => fi.dflt
  else fi.dflt

/-- Payload key lookup against a field's validation alias: pydantic matches
keys case-insensitively ignoring punctuation (normalize_attribute_name is the
validation alias generator, and normalize_attribute_names lowercases payload
keys). -/
def lookupNormalized (es : List (String × PyVal)) (fieldName : String) :
    Option PyVal :=
  ((es.find? (fun e =>
    normalizeAttributeName e.1 == normalizeAttributeName fieldName)).map Prod.snd)

/-- Class construction with no arguments (ClassName()): every field takes its
declared default, schemas is populated from __schema__. -/
def defaultInstance (cls : String) : PyVal :=
  match classTable cls with
  | some ci => .vobj cls (ci.fields.map (fun fi => (fi.name, fieldDefaultFor ci fi)))
  | none => .vnone

/-- pydantic validation of a payload dict into a class: unrecognized keys are
rejected (extra forbid), recognized ones are matched through the validation
aliases, missing ones take their defaults.  Nested payloads within the values
are the caller's concern; the claims only route flat payloads here. -/
def validateToClass (cls : String) (es : List (String × PyVal)) :
    Except PyErr PyVal :=
  match classTable cls with
  | some ci =>
    if es.all (fun e => (findFieldName ci e.1).isSome) then
      .ok (.vobj cls (ci.fields.map (fun fi =>
        (fi.name, (lookupNormalized es fi.name).getD (fieldDefaultFor ci fi)))))
    else .error .validationError
  | none => .error .validationError

/-- One level of the re-validation performed on assignment
(validate_assignment): a payload dict destined for a complex field becomes an
instance of the field's class; lists are converted elementwise.  The claims
route only valid payloads through assignment, so the rejection path of
assignment validation stays unmodeled. -/
def coerceToClass (cls : String) (value : PyVal) : PyVal :=
  match value, classTable cls with
  | .vdict es, some ci =>
    .vobj cls (ci.fields.map (fun fi =>
      (fi.name, (lookupNormalized es fi.name).getD (fieldDefaultFor ci fi))))
  | _, _ => value

/-- Raw field replacement, the rendering of aliased in-place mutation of a
nested object re-installed into its parent. -/
def setattrRaw (v : PyVal) (field : String) (newVal : PyVal) : PyVal :=
  match v with
  | .vobj cls fields =>
    .vobj cls (fields.map (fun e => if e.1 == field then (e.1, newVal) else e))
  | _ => v

/-- Python setattr under validate_assignment: the assigned value is coerced
through the field's declared type, then stored. -/
def setattrV (v : PyVal) (field : String) (newVal : PyVal) : PyVal :=
  match (classInfoOf v).bind (getFieldInfo · field) with
  | some fi =>
    match fi.rootCls with
    | some cls =>
      if fi.multi then
        match newVal with
        | .vlist xs => setattrRaw v field (.vlist (xs.map (coerceToClass cls)))
        | _ => setattrRaw v field newVal
      else setattrRaw v field (coerceToClass cls newVal)
    | none => setattrRaw v field newVal
  | none => setattrRaw v field newVal

/-- The serialization alias of a field. -/
def aliasOf (cls : String) (fieldName : String) : String :=
  ((((classTable cls).bind (getFieldInfo · fieldName)).map (·.salias))).getD fieldName

mutual

/-- BaseModel.model_dump in the default context (json mode, by_alias,
exclude_none, with model_serializer_exclude_none dropping the None fields of
every model level): models become dicts keyed by serialization alias with
None-valued fields removed, lists and dicts dump elementwise, primitives pass
through. -/
def modelDump : PyVal → PyVal
  | .vnone => .vnone
  | .vstr s => .vstr s
  | .vbool b => .vbool b
  | .vlist xs => .vlist (modelDumpList xs)
  | .vdict es => .vdict (modelDumpEntries es)
  | .vobj cls fields => .vdict (modelDumpObjFields cls fields)

/-- Elementwise dump of a list. -/
def modelDumpList : List PyVal → List PyVal
  | [] => []
  | x :: xs => modelDump x :: modelDumpList xs

/-- Elementwise dump of a dict. -/
def modelDumpEntries : List (String × PyVal) → List (String × PyVal)
  | [] => []
  | (k, v) :: rest => (k, modelDump v) :: modelDumpEntries rest

/-- Dump of a model's fields: alias the keys and drop the None values. -/
def modelDumpObjFields (cls : String) : List (String × PyVal) → List (String × PyVal)
  | [] => []
  | (n, v) :: rest =>
    match modelDump v with
    | .vnone => modelDumpObjFields cls rest
    | dv => (aliasOf cls n, dv) :: modelDumpObjFields cls rest

end

/-- From patch_op.py PatchOp._values_match (and the identical
path.py _values_match): convert pydantic models to their model_dump dict and
compare with Python ==. -/
def toComparable (v : PyVal) : PyVal :=
  match v with
  | .vobj _ _ => modelDump v
  | _ => v

/-- Two values match after model-to-dict conversion. -/
def valuesMatch (a b : PyVal) : Bool := pyEq (toComparable a) (toComparable b)

/-- From _value_exists_in_list / _value_in_list: membership under
valuesMatch. -/
def valueExistsInList (xs : List PyVal) (newValue : PyVal) : Bool :=
  xs.any (fun item => valuesMatch item newValue)

/-! ### Path resolution to a target (src/scim2_models/urn.py) -/

/-- The target selector of a resolution: the root resource itself, or one of
its extension fields.  The source returns the target object by reference;
the selector renders that reference against the (possibly updated) root. -/
inductive TargetSel where
  | root
  | extField (name : String)

/-- Read the selected target. -/
def getTargetVal (resource : PyVal) : TargetSel → PyVal
  | .root => resource
  | .extField n => getattr resource n

/-- Write the selected target back. -/
def setTargetVal (resource : PyVal) (sel : TargetSel) (newTarget : PyVal) : PyVal :=
  match sel with
  | .root => newTarget
  | .extField n => setattrRaw resource n newTarget

/-- The schemas attribute value of an instance, as a string list. -/
def schemasOf (v : PyVal) : List String :=
  match getattr v "schemas" with
  | .vlist xs => xs.filterMap (fun x => match x with | .vstr s => some s | _ => none)
  | _ => []

/-- From urn.py _normalize_path: an absolute URN splits at its last colon;
a relative path on a Resource class reads
model_fields["schemas"].default[0] — on this tree's resources the schemas
field has no class-level default (instances get theirs from
_populate_schemas_default), so the subscript raises TypeError; any other
model yields an empty schema. -/
def normalizePath (cls : Option ClassInfo) (path : String) :
    Except PyErr (String × String) :=
  if containsChar path ':' then .ok (rsplitColon path)
  else
    match cls with
    | some ci => if ci.isResource then .error .typeError else .ok ("", path)
    | none => .ok ("", path)

/-- From resources/resource.py Resource.get_extension_model: first declared
extension whose schema or class name equals the argument exactly. -/
def getExtensionModel (ci : ClassInfo) (nameOrSchema : String) : Option String :=
  (ci.extensions.find? (fun e => e.1 == nameOrSchema || e.2 == nameOrSchema)).map
    Prod.snd

/-- From urn.py _resolve_path_to_target together with
_get_or_create_extension_instance: resolve a path to the root or to an
extension instance (created and attached when absent — the get-or-create
addresses the extension through Resource.__getitem__ / __setitem__, which for
an exact extension selector reduce to reading and assigning the extension
field), plus the remaining attribute path.  A none selector models the
Python (None, "") result for an unknown schema. -/
def resolvePathToTarget (resource : PyVal) (path : String) :
    Except PyErr (PyVal × Option TargetSel × String) := do
  let (schemaUrn, attrPath) ← normalizePath (classInfoOf resource) path
  if schemaUrn = "" then .ok (resource, some .root, attrPath)
  else if (schemasOf resource).contains schemaUrn then
    .ok (resource, some .root, attrPath)
  else
    match (classInfoOf resource).bind (getExtensionModel · schemaUrn) with
    | none => .ok (resource, none, "")
    | some extName =>
      if isNoneV (getattr resource extName) then
        .ok (setattrV resource extName (defaultInstance extName),
          some (.extField extName), attrPath)
      else .ok (resource, some (.extField extName), attrPath)

/-! ### The PATCH application engine (src/scim2_models/messages/patch_op.py) -/

/-- Modelled from the spec: _get_path_parts is imported by patch_op.py from
utils.py but missing from this tree; per the spec an attribute path is a
sequence of dot-separated segments, so the attribute path splits on dots. -/
def getPathParts (attrPath : String) : List String := pySplitChar '.' attrPath

/-- From PatchOp._is_multivalued_field. -/
def isMultivaluedField (resource : PyVal) (fieldName : String) : Bool :=
  hasattrV resource fieldName && fieldMulti resource fieldName

/-- From PatchOp._create_parent_object: instantiate the field's complex class
and attach it; none when the root type offers no class to instantiate. -/
def createParentObject (resource : PyVal) (parentFieldName : String) :
    Option (PyVal × PyVal) :=
  match (classInfoOf resource).bind (getFieldInfo · parentFieldName) with
  | some fi =>
    match fi.rootCls with
    | some cls =>
      let parentObj := defaultInstance cls
      some (setattrV resource parentFieldName parentObj, parentObj)
    | none => none
  | none => none

/-- From PatchOp._add_multiple_values and _add_single_value, reached through
_handle_multivalued_add: append the values (or the one value) missing from
the current list. -/
def handleMultivaluedAdd (resource : PyVal) (fieldName : String) (value : PyVal) :
    Except PyErr (PyVal × Bool) :=
  let currentList := match getattr resource fieldName with
    | .vlist xs => xs
    | _ => []
  match value with
  | .vlist vs =>
    let newValues := vs.filter (fun v => ¬ valueExistsInList currentList v)
    if newValues.isEmpty then .ok (resource, false)
    else .ok (setattrV resource fieldName (.vlist (currentList ++ newValues)), true)
  | _ =>
    if valueExistsInList currentList value then .ok (resource, false)
    else .ok (setattrV resource fieldName (.vlist (currentList ++ [value])), true)

/-- From PatchOp._set_simple_attribute. -/
def setSimpleAttribute (resource : PyVal) (attrName : String) (value : PyVal)
    (isAdd : Bool) : Except PyErr (PyVal × Bool) := do
  let ci ← fieldsClassInfo resource
  match findFieldName ci attrName with
  | none => .error .noTarget
  | some fieldName =>
    if isAdd && isMultivaluedField resource fieldName then
      handleMultivaluedAdd resource fieldName value
    else
      if pyEq (getattr resource fieldName) value then .ok (resource, false)
      else .ok (setattrV resource fieldName value, true)

/-- From PatchOp._set_value_at_path and _set_complex_attribute after path
resolution, processed segmentwise: the source rejoins the tail segments with
dots and recurses through _set_value_at_path, which re-resolves (a no-op on a
non-Resource target whose sub-path carries no colon) and re-splits them;
since split segments are dot-free the round trip is the identity, and the
recursion is rendered directly on the segment list.  The truthiness guard at
the head replays the source's "if not target" check at each recursion
level. -/
def setAtParts (target : PyVal) (parts : List String) (value : PyVal)
    (isAdd : Bool) : Except PyErr (PyVal × Bool) :=
  if ¬ pyTruthy target then .error .invalidPath
  else
    match parts with
    | [] => .error .invalidPath
    | [p] => setSimpleAttribute target p value isAdd
    | p :: rest => do
      let ci ← fieldsClassInfo target
      match findFieldName ci p with
      | none => .error .noTarget
      | some fieldName =>
        if isNoneV (getattr target fieldName) then
          match createParentObject target fieldName with
          | none => .ok (target, false)
          | some (target2, parentObj) => do
            let (p2, changed) ← setAtParts parentObj rest value isAdd
            .ok (setattrRaw target2 fieldName p2, changed)
        else do
          let (p2, changed) ← setAtParts (getattr target fieldName) rest value isAdd
          .ok (setattrRaw target fieldName p2, changed)

/-- Python {**a, **b}: the first dict updated by the second. -/
def mergeEntries (a b : List (String × PyVal)) : List (String × PyVal) :=
  a.map (fun e => (e.1, (lookupEntry b e.1).getD e.2))
    ++ b.filter (fun e => (lookupEntry a e.1).isNone)

/-- The dumped entries of a model. -/
def dumpEntries (v : PyVal) : List (String × PyVal) :=
  match modelDump v with
  | .vdict es => es
  | _ => []

/-- The class name of a model instance. -/
def classNameOf : PyVal → Option String
  | .vobj cls _ => some cls
  | _ => none

/-- From PatchOp._set_value_at_path: resolve, then either merge a pathless
dict payload into the target (re-validated as a whole), or walk the
segments. -/
def setValueAtPath (resource : PyVal) (path : String) (value : PyVal)
    (isAdd : Bool) : Except PyErr (PyVal × Bool) := do
  let (resource1, sel?, attrPath) ← resolvePathToTarget resource path
  match sel? with
  | none => .error .invalidPath
  | some sel =>
    let target := getTargetVal resource1 sel
    if ¬ pyTruthy target then .error .invalidPath
    else if attrPath = "" then
      match value with
      | .vdict es =>
        match classNameOf target with
        | some cls => do
          let updated ← validateToClass cls (mergeEntries (dumpEntries target) es)
          .ok (setTargetVal resource1 sel updated, true)
        | none => .error .validationError
      | _ => .error .invalidPath
    else do
      let (t2, changed) ← setAtParts target (getPathParts attrPath) value isAdd
      .ok (setTargetVal resource1 sel t2, changed)

/-- From PatchOp._remove_value_at_path after path resolution, processed
segmentwise like setAtParts (the source recursion rejoins and re-resolves the
dot-free tail segments; the truthiness guard replays its target check). -/
def removeAtParts (target : PyVal) (parts : List String) :
    Except PyErr (PyVal × Bool) :=
  if ¬ pyTruthy target then .error .invalidPath
  else
    match parts with
    | [] => .error .invalidPath
    | parentAttr :: pathParts => do
      let ci ← fieldsClassInfo target
      match findFieldName ci parentAttr with
      | none => .error .noTarget
      | some fieldName =>
        if isNoneV (getattr target fieldName) then .ok (target, false)
        else
          match pathParts with
          | [] => .ok (setattrV target fieldName .vnone, true)
          | _ => do
            let (p2, changed) ← removeAtParts (getattr target fieldName) pathParts
            .ok (setattrRaw target fieldName p2, changed)

/-- From PatchOp._remove_value_at_path: resolve, then remove along the
segments. -/
def removeValueAtPath (resource : PyVal) (path : String) :
    Except PyErr (PyVal × Bool) := do
  let (resource1, sel?, attrPath) ← resolvePathToTarget resource path
  match sel? with
  | none => .error .invalidPath
  | some sel =>
    if attrPath = "" then .error .invalidPath
    else do
      let target := getTargetVal resource1 sel
      let (t2, changed) ← removeAtParts target (getPathParts attrPath)
      .ok (setTargetVal resource1 sel t2, changed)

/-- From PatchOp._remove_specific_value: remove the matching values of a
multi-valued attribute, clearing the field when it empties. -/
def removeSpecificValue (resource : PyVal) (path : String)
    (valueToRemove : PyVal) : Except PyErr (PyVal × Bool) := do
  let (resource1, sel?, attrPath) ← resolvePathToTarget resource path
  match sel? with
  | none => .error .invalidPath
  | some sel =>
    if attrPath = "" then .error .invalidPath
    else do
      let target := getTargetVal resource1 sel
      let ci ← fieldsClassInfo target
      match findFieldName ci attrPath with
      | none => .error .noTarget
      | some fieldName =>
        match getattr target fieldName with
        | .vlist currentList =>
          let newList := currentList.filter (fun item =>
            ¬ valuesMatch item valueToRemove)
          if newList.length = currentList.length then .ok (resource1, false)
          else
            .ok (setTargetVal resource1 sel
              (setattrV target fieldName
                (if newList.isEmpty then .vnone else .vlist newList)), true)
        | _ => .ok (resource1, false)

/-- The PATCH operation kinds. -/
inductive PatchOpKind where
  | add
  | remove
  | replaceOp
deriving DecidableEq, Repr

/-- A PatchOperation value as the engine consumes it. -/
structure PatchOperationV where
  op : PatchOpKind
  path : Option String
  value : PyVal

/-- From PatchOp._apply_root_attributes: merge the recognized keys of a
pathless payload into the root fields. -/
def applyRootAttributes (resource : PyVal) : List (String × PyVal) → Bool →
    Except PyErr (PyVal × Bool)
  | [], modified => .ok (resource, modified)
  | (attrName, val) :: rest, modified => do
    let ci ← fieldsClassInfo resource
    match findFieldName ci attrName with
    | none => applyRootAttributes resource rest modified
    | some fieldName =>
      if ¬ pyEq (getattr resource fieldName) val then
        applyRootAttributes (setattrV resource fieldName val) rest true
      else applyRootAttributes resource rest modified

/-- From PatchOp._apply_add_replace. -/
def applyAddReplace (resource : PyVal) (operation : PatchOperationV) :
    Except PyErr (PyVal × Bool) :=
  match operation.path with
  | some p =>
    setValueAtPath resource p operation.value (operation.op == PatchOpKind.add)
  | none =>
    match operation.value with
    | .vdict es => applyRootAttributes resource es false
    | _ => .ok (resource, false)

/-- From PatchOp._apply_remove. -/
def applyRemove (resource : PyVal) (operation : PatchOperationV) :
    Except PyErr (PyVal × Bool) :=
  match operation.path with
  | none => .error .invalidPath
  | some p =>
    if ¬ isNoneV operation.value then removeSpecificValue resource p operation.value
    else removeValueAtPath resource p

/-- From PatchOp._apply_operation. -/
def applyOperation (resource : PyVal) (operation : PatchOperationV) :
    Except PyErr (PyVal × Bool) :=
  match operation.op with
  | .add => applyAddReplace resource operation
  | .replaceOp => applyAddReplace resource operation
  | .remove => applyRemove resource operation

/-- The operation loop of PatchOp.patch: apply in sequence, OR the modified
flags. -/
def patchGo : List PatchOperationV → PyVal → Bool → Except PyErr (PyVal × Bool)
  | [], resource, modified => .ok (resource, modified)
  | operation :: rest, resource, modified => do
    let (r2, c) ← applyOperation resource operation
    patchGo rest r2 (modified || c)

/-- From PatchOp.patch: apply all operations in order against the resource,
returning the updated resource and whether anything changed. -/
def patchOpPatch (operations : List PatchOperationV) (resource : PyVal) :
    Except PyErr (PyVal × Bool) :=
  patchGo operations resource false

/-! ### The bound-path navigation engine (src/scim2_models/path.py) -/

/-- Python s[n:] on character counts. -/
def dropChars (s : String) (n : Nat) : String := ⟨s.data.drop n⟩

/-- Python s.lstrip for a colon: drop every leading colon. -/
def lstripColons (s : String) : String := ⟨s.data.dropWhile (fun c => c = ':')⟩

/-- From Path._resolve_instance: route a path to the root or to an extension
instance.  The result carries the possibly updated root (create mode attaches
a missing extension), the target selector, the remaining path and the
is_explicit_schema_path flag; a none result models the Python None (an absent
extension outside create mode, or a non-model resource). -/
def resolveInstance (resource : PyVal) (pathStr : String) (create : Bool) :
    Except PyErr (Option (PyVal × TargetSel × String × Bool)) :=
  if ¬ containsChar pathStr ':' then .ok (some (resource, .root, pathStr, false))
  else
    let ci? := classInfoOf resource
    let modelSchema := (ci?.bind (·.schemaUrn)).getD ""
    let pathLower := pyLower pathStr
    if (((ci?.map (fun ci => ci.isResource || ci.isExtension)).getD false)
        && pyStartsWith pathLower (pyLower modelSchema)) then
      .ok (some (resource, .root,
        lstripColons (dropChars pathStr modelSchema.data.length),
        pathLower == pyLower modelSchema))
    else if (ci?.map (·.isResource)).getD false then
      resolveExtensions resource pathStr pathLower create
        ((ci?.map (·.extensions)).getD [])
    else .ok none
where
  /-- The extension loop of _resolve_instance: an exact schema match selects
  the extension field on the root; a prefix match descends into the extension
  instance, creating and attaching it first in create mode; a path matching
  no declared extension is an InvalidPathException. -/
  resolveExtensions (resource : PyVal) (pathStr pathLower : String)
      (create : Bool) :
      List (String × String) → Except PyErr (Option (PyVal × TargetSel × String × Bool))
    | [] => .error .invalidPath
    | (extSchema, extName) :: rest =>
      if pathLower == pyLower extSchema then
        .ok (some (resource, .root, extName, false))
      else if pyStartsWith pathLower (pyLower extSchema) then
        let subPath := lstripColons (dropChars pathStr extSchema.data.length)
        if isNoneV (getattr resource extName) then
          if create then
            .ok (some (setattrV resource extName (defaultInstance extName),
              .extField extName, subPath, false))
          else .ok none
        else .ok (some (resource, .extField extName, subPath, false))
      else resolveExtensions resource pathStr pathLower create rest

/-- From Path._walk_to_target composed with the terminal getattr of
Path._get, processed segmentwise: walk the intermediate fields (a None
intermediate yields none, a missing name PathNotFoundException, a non-model
intermediate — a list — AttributeError from _find_field_name), then read the
terminal field. -/
def walkGetParts (obj : PyVal) : List String → Except PyErr (Option PyVal)
  | [] => .error .pathNotFound
  | [p] => do
    let ci ← fieldsClassInfo obj
    match findFieldName ci p with
    | none => .error .pathNotFound
    | some f => .ok (some (getattr obj f))
  | p :: rest => do
    let ci ← fieldsClassInfo obj
    match findFieldName ci p with
    | none => .error .pathNotFound
    | some f =>
      if isNoneV (getattr obj f) then .ok none
      else walkGetParts (getattr obj f) rest

/-- From Path._get with strict=True (Path.get re-raises every
InvalidPathException): resolve, return the target itself on an empty
remaining path, else walk the dotted segments. -/
def pathGet (resource : PyVal) (pathStr : String) : Except PyErr PyVal := do
  match ← resolveInstance resource pathStr false with
  | none => .ok .vnone
  | some (res1, sel, p, _) =>
    if p = "" then .ok (getTargetVal res1 sel)
    else
      match ← walkGetParts (getTargetVal res1 sel) (pySplitChar '.' p) with
      | some v => .ok v
      | none => .ok .vnone

/-- From Path._set_field_value: add to a multi-valued field skipping
duplicates, or replace, wrapping a bare value destined for a multi-valued
field into a singleton list. -/
def setFieldValueB (obj : PyVal) (fieldName : String) (value : PyVal)
    (isAdd : Bool) : PyVal × Bool :=
  let isMultivalued := fieldMulti obj fieldName
  if isAdd && isMultivalued then
    let currentList := match getattr obj fieldName with
      | .vlist xs => xs
      | _ => []
    match value with
    | .vlist vs =>
      let newValues := vs.filter (fun v => ¬ valueExistsInList currentList v)
      if newValues.isEmpty then (obj, false)
      else (setattrV obj fieldName (.vlist (currentList ++ newValues)), true)
    | _ =>
      if valueExistsInList currentList value then (obj, false)
      else (setattrV obj fieldName (.vlist (currentList ++ [value])), true)
  else
    let value := match value with
      | .vlist _ => value
      | .vnone => value
      | v => if isMultivalued then .vlist [v] else v
    if pyEq (getattr obj fieldName) value then (obj, false)
    else (setattrV obj fieldName value, true)

/-- The segment loop of Path._set: create a missing intermediate complex
object (give up on a field without an instantiable class), refuse to descend
into a list (return unchanged), and set the terminal field. -/
def pathSetParts (obj : PyVal) (value : PyVal) (isAdd : Bool) :
    List String → Except PyErr (PyVal × Bool)
  | [] => .error .pathNotFound
  | [p] => do
    let ci ← fieldsClassInfo obj
    match findFieldName ci p with
    | none => .error .pathNotFound
    | some f => .ok (setFieldValueB obj f value isAdd)
  | p :: rest => do
    let ci ← fieldsClassInfo obj
    match findFieldName ci p with
    | none => .error .pathNotFound
    | some f =>
      match getattr obj f with
      | .vnone =>
        match fieldRootCls obj f with
        | none => .ok (obj, false)
        | some cls => do
          let (s2, changed) ← pathSetParts (defaultInstance cls) value isAdd rest
          .ok (setattrRaw (setattrV obj f (defaultInstance cls)) f s2, changed)
      | .vlist _ => .ok (obj, false)
      | subObj => do
        let (s2, changed) ← pathSetParts subObj value isAdd rest
        .ok (setattrRaw obj f s2, changed)

/-- From Path._set with strict=True: resolve in create mode; an empty
remaining path merges a dict payload whose recognized keys change something
(re-validated as a whole; a non-dict payload on an explicit schema path is an
InvalidPathException); otherwise walk the dotted segments. -/
def pathSet (resource : PyVal) (pathStr : String) (value : PyVal)
    (isAdd : Bool) : Except PyErr (PyVal × Bool) := do
  match ← resolveInstance resource pathStr true with
  | none => .ok (resource, false)
  | some (res1, sel, p, isExplicitSchemaPath) =>
    if p = "" then
      match value with
      | .vdict es =>
        let target := getTargetVal res1 sel
        let ci ← fieldsClassInfo target
        let filtered := es.filter (fun e => (findFieldName ci e.1).isSome)
        if filtered.isEmpty then .ok (res1, false)
        else
          let oldData := dumpEntries target
          let updatedData := mergeEntries oldData filtered
          if pyEq (.vdict updatedData) (.vdict oldData) then .ok (res1, false)
          else
            match classNameOf target with
            | some cls => do
              let updated ← validateToClass cls updatedData
              .ok (setTargetVal res1 sel updated, true)
            | none => .error .validationError
      | _ =>
        if isExplicitSchemaPath then .error .invalidPath
        else .ok (res1, false)
    else do
      let (t2, changed) ← pathSetParts (getTargetVal res1 sel) value isAdd
        (pySplitChar '.' p)
      .ok (setTargetVal res1 sel t2, changed)

/-- From Path._delete after Path._walk_to_target, processed segmentwise: walk
the intermediates exactly as the get walk does, then clear the terminal field
or filter a matching value out of its list. -/
def walkDeleteParts (obj : PyVal) (value? : Option PyVal) :
    List String → Except PyErr (Option (PyVal × Bool))
  | [] => .error .pathNotFound
  | [p] => do
    let ci ← fieldsClassInfo obj
    match findFieldName ci p with
    | none => .error .pathNotFound
    | some f =>
      if isNoneV (getattr obj f) then .ok (some (obj, false))
      else
        match value? with
        | some value =>
          match getattr obj f with
          | .vlist xs =>
            let newList := xs.filter (fun item => ¬ valuesMatch item value)
            if newList.length = xs.length then .ok (some (obj, false))
            else
              .ok (some (setattrV obj f
                (if newList.isEmpty then .vnone else .vlist newList), true))
          | _ => .ok (some (obj, false))
        | none => .ok (some (setattrV obj f .vnone, true))
  | p :: rest => do
    let ci ← fieldsClassInfo obj
    match findFieldName ci p with
    | none => .error .pathNotFound
    | some f =>
      if isNoneV (getattr obj f) then .ok none
      else
        match ← walkDeleteParts (getattr obj f) value? rest with
        | none => .ok none
        | some (n2, changed) => .ok (some (setattrRaw obj f n2, changed))

/-- From Path._delete with strict=True: resolve, reject an empty remaining
path, walk and delete. -/
def pathDelete (resource : PyVal) (pathStr : String) (value? : Option PyVal) :
    Except PyErr (PyVal × Bool) := do
  match ← resolveInstance resource pathStr false with
  | none => .ok (resource, false)
  | some (res1, sel, p, _) =>
    if p = "" then .error .invalidPath
    else
      match ← walkDeleteParts (getTargetVal res1 sel) value? (pySplitChar '.' p) with
      | none => .ok (res1, false)
      | some (t2, changed) => .ok (setTargetVal res1 sel t2, changed)

/-! ### Concrete instances and supporting lemmas for the patch claims -/

/-- A User email as in the library's own primary-exclusivity test: value
"existing@example.com", primary True. -/
def email1 : PyVal := .vobj "Email"
  [("value", .vstr "existing@example.com"), ("display", .vnone),
   ("type", .vnone), ("primary", .vbool true)]

/-- A User instance with one primary email and no extension instance; the
schemas value is the one _populate_schemas_default assigns. -/
def user0 : PyVal := .vobj "User"
  [("schemas", .vlist [.vstr coreUserUrn]), ("id", .vnone),
   ("external_id", .vnone), ("user_name", .vstr "bjensen"), ("name", .vnone),
   ("display_name", .vnone), ("nick_name", .vnone), ("password", .vnone),
   ("emails", .vlist [email1]), ("EnterpriseUser", .vnone)]

/-- user0 with its emails collection replaced. -/
def mkUserEmails (emails : PyVal) : PyVal := .vobj "User"
  [("schemas", .vlist [.vstr coreUserUrn]), ("id", .vnone),
   ("external_id", .vnone), ("user_name", .vstr "bjensen"), ("name", .vnone),
   ("display_name", .vnone), ("nick_name", .vnone), ("password", .vnone),
   ("emails", emails), ("EnterpriseUser", .vnone)]

/-- The number of elements of a collection whose primary sub-attribute is
True. -/
def primaryTrueCount (v : PyVal) : Nat :=
  match v with
  | .vlist xs =>
    (xs.filter (fun e => pyEq (getattr e "primary") (.vbool true))).length
  | _ => 0

/-- The length of a collection value. -/
def collectionLength (v : PyVal) : Nat :=
  match v with
  | .vlist xs => xs.length
  | _ => 0

theorem takeWhile_all_append {α : Type} (p : α → Bool) (xs : List α) (y : α)
    (ys : List α) (hx : ∀ a ∈ xs, p a = true) (hy : p y = false) :
    (xs ++ y :: ys).takeWhile p = xs := by
  induction xs with
  | nil => simp [List.takeWhile_cons, hy]
  | cons a as ih =>
    have ha := hx a (by simp)
    simp only [List.cons_append, List.takeWhile_cons, ha, if_true]
    rw [ih (fun b hb => hx b (by simp [hb]))]

theorem data_append_colon (a b : String) :
    (a ++ ":" ++ b).data = a.data ++ ':' :: b.data := by
  have h1 : (a ++ ":" ++ b).data = a.data ++ (":" : String).data ++ b.data := by
    rw [String.data_append, String.data_append]
  rw [h1]
  simp

theorem containsChar_append_colon (a b : String) :
    containsChar (a ++ ":" ++ b) ':' = true := by
  unfold containsChar
  rw [data_append_colon]
  exact List.elem_iff.mpr (by simp)

theorem rsplitColon_append (a b : String) (hb : containsChar b ':' = false) :
    rsplitColon (a ++ ":" ++ b) = (a, b) := by
  have hnot : ∀ c ∈ b.data.reverse, (c != ':') = true := by
    intro c hc
    rw [List.mem_reverse] at hc
    have : ¬ (':' : Char) ∈ b.data := by
      intro hmem
      rw [Bool.eq_false_iff] at hb
      exact hb (List.elem_iff.mpr hmem)
    simp only [bne_iff_ne, ne_eq]
    intro he
    exact this (he ▸ hc)
  have hrev : (a.data ++ ':' :: b.data).reverse
      = b.data.reverse ++ ':' :: a.data.reverse := by
    simp
  have htake : (b.data.reverse ++ ':' :: a.data.reverse).takeWhile
      (fun c => c != ':') = b.data.reverse :=
    takeWhile_all_append _ _ _ _ hnot (by simp)
  have hdrop : (b.data.reverse ++ ':' :: a.data.reverse).drop
      (b.data.reverse.length + 1) = a.data.reverse := by
    have hsplit : b.data.reverse ++ ':' :: a.data.reverse
        = (b.data.reverse ++ [':']) ++ a.data.reverse := by simp
    rw [hsplit]
    have hlen : (b.data.reverse ++ [':']).length = b.data.reverse.length + 1 := by
      simp
    rw [← hlen, List.drop_left]
  unfold rsplitColon
  rw [if_pos (containsChar_append_colon a b)]
  simp only [data_append_colon, hrev, htake, hdrop, List.reverse_reverse]

/-- The PATCH operation of the library's primary-exclusivity test
test_primary_auto_exclusion_on_add, with the attribute path qualified by the
User schema URN: add an email with primary True to a user who already has a
primary email. -/
def addSecondPrimaryEmailOp : PatchOperationV :=
  { op := .add, path := some (coreUserUrn ++ ":emails"),
    value := .vdict [("value", .vstr "new@example.com"), ("primary", .vbool true)] }

/-- Claim C1, evidence of the code bug: PatchOp.patch completes successfully
(returning modified = True) on the add of a second primary email, and the
resulting emails collection holds two elements BOTH with primary = True; no
code in the patch engine forces primary = False on the previously-primary
element, although the spec, RFC 7644 §3.5.2 and the library's own test
test_primary_auto_exclusion_on_add require it. -/
theorem C1_patch_completes_with_two_primaries :
    (patchOpPatch [addSecondPrimaryEmailOp] user0).map
      (fun r => (r.2, collectionLength (getattr r.1 "emails"),
        primaryTrueCount (getattr r.1 "emails")))
      = .ok (true, 2, 2) := by
  rfl

/-- Claim C7, counterexample: a get or delete whose dotted path continues
past the emails collection (which holds a list) crashes with an uncaught
AttributeError — _walk_to_target hands the list's type to _find_field_name,
which reads model_fields on the list class — instead of reporting a
missing-value no-op; only set guards against descending into a list. -/
theorem C7_counterexample_get_into_collection_crashes :
    pathGet user0 "emails.value" = .error .attributeError
    ∧ pathDelete user0 "emails.value" none = .error .attributeError
    ∧ pathSet user0 "emails.value" (.vstr "new@example.com") false
      = .ok (user0, false) := by
  refine ⟨rfl, rfl, rfl⟩

/-- Claim C7, amended: on a resource whose emails field holds a collection,
a set whose dotted segments continue past the collection terminates as a
no-op failure (changed = False, no exception) for every continuation, value
and add mode; a get or delete over the same segments raises an uncaught
AttributeError; when instead the intermediate field is absent (None), get and
delete report a missing-value no-op. -/
theorem C7_amended_collection_navigation :
    ∀ (xs : List PyVal) (q : String) (qs : List String) (value : PyVal)
      (isAdd : Bool) (dv : Option PyVal),
      pathSetParts (mkUserEmails (.vlist xs)) value isAdd ("emails" :: q :: qs)
        = .ok (mkUserEmails (.vlist xs), false)
      ∧ walkGetParts (mkUserEmails (.vlist xs)) ("emails" :: q :: qs)
        = .error .attributeError
      ∧ walkDeleteParts (mkUserEmails (.vlist xs)) dv ("emails" :: q :: qs)
        = .error .attributeError
      ∧ walkGetParts (mkUserEmails .vnone) ("emails" :: q :: qs) = .ok none
      ∧ walkDeleteParts (mkUserEmails .vnone) dv ("emails" :: q :: qs) = .ok none := by
  intro xs q qs value isAdd dv
  cases qs with
  | nil => exact ⟨rfl, rfl, rfl, rfl, rfl⟩
  | cons q2 qs2 => exact ⟨rfl, rfl, rfl, rfl, rfl⟩

/-- Bind of an ok value in the Except monad. -/
theorem exceptBindOk {e α β : Type} (a : α) (f : α → Except e β) :
    (Except.ok a : Except e α) >>= f = f a := rfl

/-- A remove operation whose path is qualified with the EnterpriseUser
extension schema URN. -/
def removeAtAbsentExtensionOp (attr : String) : PatchOperationV :=
  { op := .remove, path := some (enterpriseUrn ++ ":" ++ attr), value := .vnone }

/-- user0 after _get_or_create_extension_instance attached an empty
EnterpriseUser instance. -/
def userWithEmptyEnterprise : PyVal :=
  setattrV user0 "EnterpriseUser" (defaultInstance "EnterpriseUser")

theorem findFieldName_name_mem {ci : ClassInfo} {a f : String}
    (h : findFieldName ci a = some f) : f ∈ ci.fields.map (·.name) := by
  unfold findFieldName at h
  rw [Option.map_eq_some'] at h
  obtain ⟨fi, hfind, hname⟩ := h
  exact List.mem_map.mpr ⟨fi, List.mem_of_find?_eq_some hfind, hname⟩

/-- Claim C10: a PatchOp remove whose path is qualified with the EnterpriseUser
extension schema URN, applied to a user with no extension instance, reports
the resource unchanged (modified = False) yet attaches an empty extension
instance to it — for every attribute sub-path whose first dot segment names a
field of the extension other than schemas (removing the always-populated
schemas field of the fresh instance reports a change instead, which the claim
excludes by speaking of operations that report the resource unchanged). -/
theorem C10_remove_at_absent_extension_attaches_empty_instance :
    ∀ (attr p : String) (rest : List String) (f : String),
      containsChar attr ':' = false →
      pySplitChar '.' attr = p :: rest →
      findFieldName enterpriseUserClassInfo p = some f →
      f ≠ "schemas" →
      patchOpPatch [removeAtAbsentExtensionOp attr] user0
        = .ok (userWithEmptyEnterprise, false)
      ∧ isNoneV (getattr user0 "EnterpriseUser") = true
      ∧ isNoneV (getattr userWithEmptyEnterprise "EnterpriseUser") = false := by
  intro attr p rest f h1 h2 h3 h4
  refine ⟨?_, rfl, rfl⟩
  have hne : attr ≠ "" := by
    intro he
    subst he
    have hp : p = "" := by
      have hsp : pySplitChar '.' "" = [""] := rfl
      rw [hsp] at h2
      exact (List.cons.injEq _ _ _ _ ▸ h2).1.symm
    subst hp
    have hnone : findFieldName enterpriseUserClassInfo "" = none := rfl
    rw [hnone] at h3
    exact Option.noConfusion h3
  have hcond : containsChar (enterpriseUrn ++ ":" ++ attr) ':' = true :=
    containsChar_append_colon _ _
  have hnorm : normalizePath (classInfoOf user0) (enterpriseUrn ++ ":" ++ attr)
      = .ok (enterpriseUrn, attr) := by
    unfold normalizePath
    rw [if_pos hcond, rsplitColon_append _ _ h1]
  have hA : resolvePathToTarget user0 (enterpriseUrn ++ ":" ++ attr)
      = .ok (userWithEmptyEnterprise, some (.extField "EnterpriseUser"), attr) := by
    unfold resolvePathToTarget
    rw [hnorm, exceptBindOk]
    rfl
  have hgf : isNoneV (getattr (defaultInstance "EnterpriseUser") f) = true := by
    have hmem := findFieldName_name_mem h3
    simp only [enterpriseUserClassInfo, List.map_cons, List.map_nil,
      List.mem_cons, List.not_mem_nil, or_false] at hmem
    rcases hmem with rfl | rfl | rfl | rfl | rfl | rfl | rfl
    · exact absurd rfl h4
    all_goals rfl
  have hci : fieldsClassInfo (defaultInstance "EnterpriseUser")
      = Except.ok enterpriseUserClassInfo := rfl
  have htruthy : pyTruthy (defaultInstance "EnterpriseUser") = true := rfl
  have hB : removeAtParts (defaultInstance "EnterpriseUser") (p :: rest)
      = .ok (defaultInstance "EnterpriseUser", false) := by
    rw [removeAtParts.eq_def]
    simp only [htruthy, not_true, if_false, hci, exceptBindOk, h3, hgf, if_true]
  have hC : removeValueAtPath user0 (enterpriseUrn ++ ":" ++ attr)
      = .ok (userWithEmptyEnterprise, false) := by
    unfold removeValueAtPath
    rw [hA, exceptBindOk]
    simp only [if_neg hne]
    have hgt : getTargetVal userWithEmptyEnterprise (.extField "EnterpriseUser")
        = defaultInstance "EnterpriseUser" := rfl
    have hparts : getPathParts attr = p :: rest := h2
    rw [hgt, hparts, hB, exceptBindOk]
    rfl
  show patchGo [removeAtAbsentExtensionOp attr] user0 false = _
  rw [patchGo]
  have hop : applyOperation user0 (removeAtAbsentExtensionOp attr)
      = .ok (userWithEmptyEnterprise, false) := by
    unfold applyOperation applyRemove removeAtAbsentExtensionOp
    simp only []
    rw [show isNoneV (PyVal.vnone) = true from rfl]
    simp only [if_true]
    exact hC
  rw [hop, exceptBindOk]
  rfl

/-- Witness for claim C10 at the concrete sub-path employeeNumber. -/
theorem C10_witness :
    patchOpPatch [removeAtAbsentExtensionOp "employeeNumber"] user0
      = .ok (userWithEmptyEnterprise, false)
    ∧ isNoneV (getattr user0 "EnterpriseUser") = true
    ∧ isNoneV (getattr userWithEmptyEnterprise "EnterpriseUser") = false :=
  C10_remove_at_absent_extension_attaches_empty_instance
    "employeeNumber" "employeeNumber" [] "employee_number"
    (by decide) rfl rfl (by decide)

end Scim
